import Mathlib

/-!
Verification development for the getstack-mcp server (`src/server.py`).

The server exposes two tools over a GitHub template repository:

* `get_templates` — lists top-level entries of the repository via the
  GitHub contents API and returns the directory entries as templates;
* `use_template` — validates its two string arguments, creates the target
  directory, checks template existence via the contents API, shallow-clones
  the repository into a `tempfile.TemporaryDirectory`, and copies every
  regular file of the template subtree to the target, returning the list
  of copied relative paths.

The embedding models the outcomes of the external effects (HTTP requests,
`git clone`, per-file copy) as an explicit environment, and records the
durable side effects of a `use_template` run as a trace, so that
invariants about destination writes and temporary-workspace cleanup can
be stated.  Machine-level concerns (actual sockets, actual filesystem)
are outside the embedding; control flow, error messages and the shape of
results follow the Python source line by line.
-/

namespace GetStack

/-- One JSON entry returned by the GitHub contents API
(`GET <api>/contents/`): the fields the server reads. -/
structure GHEntry where
  name : String
  path : String
  typ : String
  html_url : String
deriving Repr, DecidableEq

/-- The template descriptor built by `get_templates` for each directory
entry (`{"name": item["name"], "path": item["path"], "url": item["html_url"]}`). -/
structure TemplateDescriptor where
  name : String
  path : String
  url : String
deriving Repr, DecidableEq

/-- Result dictionary of `get_templates`: either
`{success: True, templates, count}` or `{success: False, error}`. -/
inductive GetResult where
  | ok (templates : List TemplateDescriptor) (count : Nat)
  | err (error : String)
deriving Repr, DecidableEq

/-- Outcome of the `requests.get(f"{GITHUB_API_URL}/contents/")` call and
of parsing its body, as seen by `get_templates`:
either a response with a status code and (for `get_templates`) a parsed
JSON array, or an exception raised during the request/parse.
`requestException` models `requests.RequestException`; `otherException`
models any other `Exception` (e.g. a JSON decode failure). -/
inductive HttpListOutcome where
  | response (status : Nat) (body : List GHEntry)
  | requestException (msg : String)
  | otherException (msg : String)
deriving Repr

/-- A Python exception escaping the `try` body of `get_templates`:
either a `requests.RequestException` or any other `Exception`. -/
inductive PyExn where
  | requestException (msg : String)
  | otherException (msg : String)
deriving Repr, DecidableEq

/-- The `try` body of `get_templates` (src/server.py lines 41-67): the
loop `for item in contents: if item.get("type") == "dir":
templates.append(...)` is rendered as the same left fold; a raised
exception escapes as `.error`. -/
def getTemplatesBody (o : HttpListOutcome) : Except PyExn GetResult :=
  match o with
  | .requestException m => .error (.requestException m)
  | .otherException m => .error (.otherException m)
  | .response status body =>
    if status ≠ 200 then
      .ok (.err ("Failed to fetch repository contents. Status code: " ++ toString status))
    else
      let templates := body.foldl (fun acc item =>
        if item.typ = "dir" then
          acc ++ [⟨item.name, item.path, item.html_url⟩]
        else acc) []
      .ok (.ok templates templates.length)

/-- Embedding of `get_templates` (src/server.py lines 33-80): run the
`try` body; the `except requests.RequestException` handler returns
`{success: False, error: f"Network error: {e}"}` and the
`except Exception` handler returns `{success: False, error: str(e)}`. -/
def get_templates (o : HttpListOutcome) : GetResult :=
  match getTemplatesBody o with
  | .ok r => r
  | .error (.requestException m) => .err ("Network error: " ++ m)
  | .error (.otherException m) => .err m

/-- A node of the cloned repository's file tree: a regular file with its
byte content, or a directory with an ordered list of children (the order
`os.scandir` enumerates them in). -/
inductive FSTree where
  | file (name : String) (content : String)
  | dir (name : String) (children : List FSTree)
deriving Repr

/-- The name of a tree node. -/
def FSTree.nameOf : FSTree → String
  | .file n _ => n
  | .dir n _ => n

/-- `(temp_path / template_name).exists() and .is_dir()` followed by use of
that directory: look up the first root entry with the given name and
return its children when it is a directory. -/
def findDir (root : List FSTree) (n : String) : Option (List FSTree) :=
  match root.find? (fun t => t.nameOf = n) with
  | some (.dir _ cs) => some cs
  | _ => none

mutual

/-- The descent part of `Path.rglob("*")` below one entry: CPython's
recursive-wildcard selector yields the directories of the tree in
preorder and, for each, its children in scandir order; a file
contributes nothing, a directory contributes its entries and then its
own descent, all prefixed with its name.  Each result pairs the
relative path components with the node found there. -/
def rglobTreeDesc : FSTree → List (List String × FSTree)
  | .file _ _ => []
  | .dir n cs =>
      (cs.map (fun t => ([t.nameOf], t)) ++ rglobListDesc cs).map
        (fun pc => (n :: pc.1, pc.2))

/-- The descent part of `Path.rglob("*")` below a list of sibling
entries, in scandir order. -/
def rglobListDesc : List FSTree → List (List String × FSTree)
  | [] => []
  | t :: ts => rglobTreeDesc t ++ rglobListDesc ts

end

/-- `Path.rglob("*")` over a directory with the given children: the
directory's own entries first, then the recursive descent. -/
def rglobList (ts : List FSTree) : List (List String × FSTree) :=
  ts.map (fun t => ([t.nameOf], t)) ++ rglobListDesc ts

/-- The `item.is_file()` filter of the copy loop: keep a result of the
traversal when the node there is a regular file, with its content. -/
def fileProj (pc : List String × FSTree) : Option (List String × String) :=
  match pc.2 with
  | .file _ c => some (pc.1, c)
  | .dir _ _ => none

/-- The regular files among the `rglob` results, each with its relative
path components and content. -/
def rglobFiles (ts : List FSTree) : List (List String × String) :=
  (rglobList ts).filterMap fileProj

/-- `str(p)` for a relative `pathlib` path: its components joined with
the host flavour's separator (`/` on POSIX, `\` on Windows). -/
def renderPath (sep : Char) : List String → String
  | [] => ""
  | [c] => c
  | c :: cs => c ++ sep.toString ++ renderPath sep cs

/-- The copy loop of `use_template` (src/server.py lines 152-166) over the
file list, given the per-file failure oracle (a raised `OSError` from
`target_file.parent.mkdir` or `shutil.copy2`, keyed by the relative path
components).  Returns the destination writes performed before the first
failure (rendered path with content, in order) and the failure message,
if any: the loop stops at the first raised exception. -/
def copyLoop (sep : Char) (fail : List String → Option String) :
    List (List String × String) → List (String × String) × Option String
  | [] => ([], none)
  | pc :: rest =>
    match fail pc.1 with
    | some m => ([], some m)
    | none =>
      let r := copyLoop sep fail rest
      ((renderPath sep pc.1, pc.2) :: r.1, r.2)

/-- Result dictionary of `use_template`: either
`{success: True, template_name, target_folder, files_copied, files}` or
`{success: False, error}`. -/
inductive UseResult where
  | ok (template_name : String) (target_folder : String)
       (files_copied : Nat) (files : List String)
  | err (error : String)
deriving Repr, DecidableEq

/-- Durable side effects of one `use_template` invocation, in order:
creation of the target directory, the existence-check HTTP request,
creation of the temporary clone workspace, the clone, each destination
file write, and deletion of the temporary workspace. -/
inductive Effect where
  | mkdirTarget
  | httpCheck
  | tempCreate
  | clone
  | copyFile (relPath : String) (content : String)
  | tempDelete
deriving Repr, DecidableEq

/-- Outcome of `requests.get(f"{GITHUB_API_URL}/contents/{template_name}")`:
a status code, or a raised exception. -/
inductive CheckOutcome where
  | response (status : Nat)
  | raised (msg : String)
deriving Repr

/-- Outcome of `Repo.clone_from(GITHUB_REPO_URL, temp_path, depth=1)`:
the cloned root tree, or a raised `GitCommandError`. -/
inductive CloneOutcome where
  | cloned (root : List FSTree)
  | raised (msg : String)
deriving Repr

/-- The environment of one `use_template` invocation: the outcomes of its
external effects, the host path separator used by `pathlib`, and the
rendering of `Path(current_folder).expanduser().absolute()`.
`mkdirFail` is the exception raised by `target_path.mkdir`, if any. -/
structure UseEnv where
  check : CheckOutcome
  clone : CloneOutcome
  copyFail : List String → Option String
  mkdirFail : Option String
  sep : Char
  resolve : String → String

/-- Output of one `use_template` run: the returned dictionary and the
trace of durable side effects. -/
structure RunOutput where
  result : UseResult
  trace : List Effect
deriving Repr, DecidableEq

/-- The `try` body of `use_template` (src/server.py lines 95-176): `.ok`
is a value returned normally, `.error` an exception that escapes the body
(to be caught by the `except Exception` handler).  The trace is carried
alongside because `tempfile.TemporaryDirectory.__exit__` deletes the
workspace before an exception propagates out of the `with` block. -/
def useTemplateBody (template_name current_folder : String) (env : UseEnv) :
    Except String UseResult × List Effect :=
  if template_name = "" then
    (.ok (.err "Template name is required"), [])
  else if current_folder = "" then
    (.ok (.err "Target folder is required"), [])
  else
    match env.mkdirFail with
    | some m => (.error m, [])
    | none =>
      match env.check with
      | .raised m => (.error m, [.mkdirTarget])
      | .response status =>
        if status = 404 then
          (.ok (.err ("Template '" ++ template_name ++ "' not found in the repository")),
           [.mkdirTarget, .httpCheck])
        else if status ≠ 200 then
          (.ok (.err ("Failed to check template. Status code: " ++ toString status)),
           [.mkdirTarget, .httpCheck])
        else
          match env.clone with
          | .raised m =>
            (.error m, [.mkdirTarget, .httpCheck, .tempCreate, .tempDelete])
          | .cloned root =>
            match findDir root template_name with
            | none =>
              (.ok (.err ("Template '" ++ template_name ++ "' not found in the cloned repository")),
               [.mkdirTarget, .httpCheck, .tempCreate, .clone, .tempDelete])
            | some children =>
              let cl := copyLoop env.sep env.copyFail (rglobFiles children)
              let trC := [Effect.mkdirTarget, Effect.httpCheck, Effect.tempCreate, Effect.clone]
                ++ cl.1.map (fun w => Effect.copyFile w.1 w.2) ++ [Effect.tempDelete]
              match cl.2 with
              | some m => (.error m, trC)
              | none =>
                (.ok (.ok template_name (env.resolve current_folder)
                       cl.1.length (cl.1.map Prod.fst)), trC)

/-- Embedding of `use_template` (src/server.py lines 83-183): run the
`try` body and convert an escaping exception into
`{success: False, error: str(e)}` via the `except Exception` handler. -/
def use_template (template_name current_folder : String) (env : UseEnv) : RunOutput :=
  let b := useTemplateBody template_name current_folder env
  match b.1 with
  | .ok r => ⟨r, b.2⟩
  | .error m => ⟨.err m, b.2⟩

/-- The destination files written during a run, in order (rendered
relative path with byte content). -/
def writesOf (tr : List Effect) : List (String × String) :=
  tr.filterMap (fun e =>
    match e with
    | .copyFile p c => some (p, c)
    | _ => none)

/-- Whether the trace records creation of the temporary clone workspace. -/
def tempCreatedIn (tr : List Effect) : Bool :=
  tr.any (fun e => match e with | .tempCreate => true | _ => false)

/-- Whether the trace records deletion of the temporary clone workspace. -/
def tempDeletedIn (tr : List Effect) : Bool :=
  tr.any (fun e => match e with | .tempDelete => true | _ => false)

/-- The regular files directly among the given directory entries, in
entry order, each as a single-component relative path. -/
def filesHere (ts : List FSTree) : List (List String × String) :=
  ts.filterMap (fun t =>
    match t with
    | .file n c => some ([n], c)
    | .dir _ _ => none)

mutual

/-- Descent below one entry of the traversal order stated by the spec
for the copy result: a directory contributes its own files first, then
its subtrees depth-first in entry order, all prefixed with its name. -/
def dfTreeDesc : FSTree → List (List String × String)
  | .file _ _ => []
  | .dir n cs =>
      (filesHere cs ++ dfListDesc cs).map (fun pc => (n :: pc.1, pc.2))

/-- Descent below a list of sibling entries, in entry order. -/
def dfListDesc : List FSTree → List (List String × String)
  | [] => []
  | t :: ts => dfTreeDesc t ++ dfListDesc ts

end

/-- The file enumeration order stated by the spec: depth-first, with a
directory's entries listed before descending into its subdirectories.
Stated independently of `rglobFiles` so that the copy order of the code
can be proved to refine it. -/
def dfFiles (ts : List FSTree) : List (List String × String) :=
  filesHere ts ++ dfListDesc ts

/-- Destination directory state: the byte content stored under each
rendered relative path, `none` when the path holds no file. -/
def applyWrites (d : String → Option String) (ws : List (String × String)) :
    String → Option String :=
  ws.foldl (fun acc w => fun q => if q = w.1 then some w.2 else acc q) d

/-- First-defined choice of two optional values. -/
def oor : Option String → Option String → Option String
  | some c, _ => some c
  | none, b => b

/-- The value left at `q` after the writes `ws`, starting from `a`. -/
def lastValFrom (a : Option String) (ws : List (String × String)) (q : String) : Option String :=
  ws.foldl (fun acc w => if q = w.1 then some w.2 else acc) a

/-- The destination state after one `use_template` run, starting from `d`. -/
def finalDest (tn cf : String) (env : UseEnv) (d : String → Option String) :
    String → Option String :=
  applyWrites d (writesOf (use_template tn cf env).trace)

/-- An empty destination directory. -/
def emptyDest : String → Option String := fun _ => none

/-- Example environment: the existence check returns HTTP 404. -/
def env404 : UseEnv :=
  ⟨.response 404, .cloned [], fun _ => none, none, '/', fun s => s⟩

/-- Example environment: the clone raises after a 200 existence check. -/
def envCloneFail : UseEnv :=
  ⟨.response 200, .raised "clone failed", fun _ => none, none, '/', fun s => s⟩

/-- Example environment: a two-file template in which copying the second
file raises. -/
def envCopyFail : UseEnv :=
  ⟨.response 200, .cloned [FSTree.dir "t" [FSTree.file "a" "x", FSTree.file "b" "y"]],
   fun p => if p = ["b"] then some "boom" else none, none, '/', fun s => s⟩

/-- Example environment: a nested template tree on a host whose
`pathlib` flavour joins path components with a backslash. -/
def envBackslash : UseEnv :=
  ⟨.response 200,
   .cloned [FSTree.dir "t"
      [FSTree.file "main.py" "m", FSTree.dir "app" [FSTree.file "routes.py" "r"]]],
   fun _ => none, none, '\\', fun s => s⟩

/-- Example environment: the same nested template tree on a POSIX host. -/
def envPosix : UseEnv :=
  ⟨.response 200,
   .cloned [FSTree.dir "t"
      [FSTree.file "main.py" "m", FSTree.dir "app" [FSTree.file "routes.py" "r"]]],
   fun _ => none, none, '/', fun s => s⟩

theorem filterMap_fileProj_entries (ts : List FSTree) :
    (ts.map (fun t => (([t.nameOf], t) : List String × FSTree))).filterMap fileProj
      = filesHere ts := by
  induction ts with
  | nil => rfl
  | cons t ts ih =>
    cases t <;> simp [fileProj, filesHere, FSTree.nameOf, List.filterMap_cons, ih] <;>
      simpa [filesHere] using ih

theorem fileProj_prefixed (n : String) (pc : List String × FSTree) :
    fileProj (n :: pc.1, pc.2) = (fileProj pc).map (fun q => (n :: q.1, q.2)) := by
  rcases pc with ⟨p, t⟩
  cases t <;> rfl

theorem filterMap_fileProj_prefixed (n : String) (l : List (List String × FSTree)) :
    (l.map (fun pc => ((n :: pc.1, pc.2) : List String × FSTree))).filterMap fileProj
      = (l.filterMap fileProj).map (fun q => (n :: q.1, q.2)) := by
  induction l with
  | nil => rfl
  | cons pc l ih =>
    simp only [List.map_cons, List.filterMap_cons, fileProj_prefixed, ih]
    cases fileProj pc <;> rfl

mutual

theorem rglobTreeDesc_filterMap (t : FSTree) :
    (rglobTreeDesc t).filterMap fileProj = dfTreeDesc t := by
  cases t with
  | file n c => rfl
  | dir n cs =>
    simp only [rglobTreeDesc, dfTreeDesc, filterMap_fileProj_prefixed, List.filterMap_append,
      filterMap_fileProj_entries, rglobListDesc_filterMap cs]

theorem rglobListDesc_filterMap (ts : List FSTree) :
    (rglobListDesc ts).filterMap fileProj = dfListDesc ts := by
  cases ts with
  | nil => rfl
  | cons t ts =>
    simp only [rglobListDesc, dfListDesc, List.filterMap_append,
      rglobTreeDesc_filterMap t, rglobListDesc_filterMap ts]

end

/-- The copy loop enumerates exactly the spec's depth-first order:
`Path.rglob("*")` filtered to regular files lists a directory's entries
before descending into them. -/
theorem rglobFiles_eq_dfFiles (ts : List FSTree) : rglobFiles ts = dfFiles ts := by
  unfold rglobFiles rglobList dfFiles
  rw [List.filterMap_append, filterMap_fileProj_entries, rglobListDesc_filterMap]

theorem copyLoop_none (sep : Char) (fail : List String → Option String)
    (l : List (List String × String)) (h : (copyLoop sep fail l).2 = none) :
    (copyLoop sep fail l).1 = l.map (fun pc => (renderPath sep pc.1, pc.2)) := by
  induction l with
  | nil => rfl
  | cons pc l ih =>
    cases hf : fail pc.1 with
    | some m =>
      exfalso
      simp [copyLoop, hf] at h
    | none =>
      simp only [copyLoop, hf, List.map_cons] at h ⊢
      simp [ih h]

theorem copyLoop_take (sep : Char) (fail : List String → Option String)
    (l : List (List String × String)) :
    ∃ k, (copyLoop sep fail l).1 = (l.map (fun pc => (renderPath sep pc.1, pc.2))).take k := by
  induction l with
  | nil => exact ⟨0, rfl⟩
  | cons pc l ih =>
    cases hf : fail pc.1 with
    | some m => exact ⟨0, by simp [copyLoop, hf]⟩
    | none =>
      obtain ⟨k, hk⟩ := ih
      exact ⟨k + 1, by simp [copyLoop, hf, hk]⟩

/-- Inversion of a successful `use_template` run: success implies the
clone succeeded, the template directory was found, and the result fields
are the rendered `rglob` file list of that subtree. -/
theorem use_template_ok_inv (tn cf n t : String) (k : Nat) (fs : List String) (env : UseEnv)
    (h : (use_template tn cf env).result = .ok n t k fs) :
    ∃ root children,
      env.clone = .cloned root ∧ findDir root tn = some children ∧
      n = tn ∧ t = env.resolve cf ∧
      fs = (rglobFiles children).map (fun pc => renderPath env.sep pc.1) ∧
      k = fs.length := by
  by_cases h1 : tn = ""
  · simp [use_template, useTemplateBody, h1] at h
  by_cases h2 : cf = ""
  · simp [use_template, useTemplateBody, h1, h2] at h
  cases hmk : env.mkdirFail with
  | some m => simp [use_template, useTemplateBody, h1, h2, hmk] at h
  | none =>
  cases hchk : env.check with
  | raised m => simp [use_template, useTemplateBody, h1, h2, hmk, hchk] at h
  | response status =>
  by_cases h404 : status = 404
  · simp [use_template, useTemplateBody, h1, h2, hmk, hchk, h404] at h
  by_cases h200 : status = 200
  case neg => simp [use_template, useTemplateBody, h1, h2, hmk, hchk, h404, h200] at h
  cases hcl : env.clone with
  | raised m => simp [use_template, useTemplateBody, h1, h2, hmk, hchk, h404, h200, hcl] at h
  | cloned root =>
  cases hfd : findDir root tn with
  | none => simp [use_template, useTemplateBody, h1, h2, hmk, hchk, h404, h200, hcl, hfd] at h
  | some children =>
  cases he : (copyLoop env.sep env.copyFail (rglobFiles children)).2 with
  | some m =>
    simp [use_template, useTemplateBody, h1, h2, hmk, hchk, h404, h200, hcl, hfd, he] at h
  | none =>
    simp [use_template, useTemplateBody, h1, h2, hmk, hchk, h404, h200, hcl, hfd, he] at h
    have hcl1 := copyLoop_none env.sep env.copyFail (rglobFiles children) he
    obtain ⟨hn, ht, hk, hfs⟩ := h
    refine ⟨root, children, rfl, hfd, hn.symm, ht.symm, ?_, ?_⟩
    · rw [← hfs, hcl1, List.map_map]
      rfl
    · rw [← hfs, ← hk]
      simp

theorem writesOf_append (a b : List Effect) :
    writesOf (a ++ b) = writesOf a ++ writesOf b := by
  simp [writesOf, List.filterMap_append]

theorem writesOf_copyFiles (l : List (String × String)) :
    writesOf (l.map (fun w => Effect.copyFile w.1 w.2)) = l := by
  induction l with
  | nil => rfl
  | cons w l ih =>
    simp only [List.map_cons, writesOf, List.filterMap_cons] at ih ⊢
    rw [ih]

/-- Every run's destination writes are a prefix of the rendered file list
of the template subtree: either no destination file was written at all,
or the clone succeeded, the template directory was found, and the writes
are the first `k` planned copies in traversal order. -/
theorem use_template_writes (tn cf : String) (env : UseEnv) :
    writesOf (use_template tn cf env).trace = [] ∨
    ∃ root children k,
      env.clone = .cloned root ∧ findDir root tn = some children ∧
      writesOf (use_template tn cf env).trace =
        ((rglobFiles children).map (fun pc => (renderPath env.sep pc.1, pc.2))).take k := by
  by_cases h1 : tn = ""
  · left; simp [use_template, useTemplateBody, h1, writesOf]
  by_cases h2 : cf = ""
  · left; simp [use_template, useTemplateBody, h1, h2, writesOf]
  cases hmk : env.mkdirFail with
  | some m => left; simp [use_template, useTemplateBody, h1, h2, hmk, writesOf]
  | none =>
  cases hchk : env.check with
  | raised m => left; simp [use_template, useTemplateBody, h1, h2, hmk, hchk, writesOf]
  | response status =>
  by_cases h404 : status = 404
  · left; simp [use_template, useTemplateBody, h1, h2, hmk, hchk, h404, writesOf]
  by_cases h200 : status = 200
  case neg =>
    left; simp [use_template, useTemplateBody, h1, h2, hmk, hchk, h404, h200, writesOf]
  cases hcl : env.clone with
  | raised m =>
    left; simp [use_template, useTemplateBody, h1, h2, hmk, hchk, h404, h200, hcl, writesOf]
  | cloned root =>
  cases hfd : findDir root tn with
  | none =>
    left
    simp [use_template, useTemplateBody, h1, h2, hmk, hchk, h404, h200, hcl, hfd, writesOf]
  | some children =>
  right
  obtain ⟨k, hk⟩ := copyLoop_take env.sep env.copyFail (rglobFiles children)
  refine ⟨root, children, k, rfl, hfd, ?_⟩
  have htr : (use_template tn cf env).trace
      = [Effect.mkdirTarget, Effect.httpCheck, Effect.tempCreate, Effect.clone]
        ++ (copyLoop env.sep env.copyFail (rglobFiles children)).1.map
            (fun w => Effect.copyFile w.1 w.2)
        ++ [Effect.tempDelete] := by
    cases he : (copyLoop env.sep env.copyFail (rglobFiles children)).2 with
    | some m =>
      simp [use_template, useTemplateBody, h1, h2, hmk, hchk, h404, h200, hcl, hfd, he]
    | none =>
      simp [use_template, useTemplateBody, h1, h2, hmk, hchk, h404, h200, hcl, hfd, he]
  rw [htr, writesOf_append, writesOf_append, writesOf_copyFiles]
  simpa [writesOf] using hk

/-- On every run, the temporary clone workspace is recorded deleted
exactly when it is recorded created: `tempfile.TemporaryDirectory` is
used as a context manager, so its `__exit__` removes the directory on
normal return and on every raised exception alike. -/
theorem use_template_temp (tn cf : String) (env : UseEnv) :
    tempCreatedIn (use_template tn cf env).trace
      = tempDeletedIn (use_template tn cf env).trace := by
  by_cases h1 : tn = ""
  · simp [use_template, useTemplateBody, h1, tempCreatedIn, tempDeletedIn]
  by_cases h2 : cf = ""
  · simp [use_template, useTemplateBody, h1, h2, tempCreatedIn, tempDeletedIn]
  cases hmk : env.mkdirFail with
  | some m => simp [use_template, useTemplateBody, h1, h2, hmk, tempCreatedIn, tempDeletedIn]
  | none =>
  cases hchk : env.check with
  | raised m =>
    simp [use_template, useTemplateBody, h1, h2, hmk, hchk, tempCreatedIn, tempDeletedIn]
  | response status =>
  by_cases h404 : status = 404
  · simp [use_template, useTemplateBody, h1, h2, hmk, hchk, h404, tempCreatedIn, tempDeletedIn]
  by_cases h200 : status = 200
  case neg =>
    simp [use_template, useTemplateBody, h1, h2, hmk, hchk, h404, h200,
      tempCreatedIn, tempDeletedIn]
  cases hcl : env.clone with
  | raised m =>
    simp [use_template, useTemplateBody, h1, h2, hmk, hchk, h404, h200, hcl,
      tempCreatedIn, tempDeletedIn]
  | cloned root =>
  cases hfd : findDir root tn with
  | none =>
    simp [use_template, useTemplateBody, h1, h2, hmk, hchk, h404, h200, hcl, hfd,
      tempCreatedIn, tempDeletedIn]
  | some children =>
  cases he : (copyLoop env.sep env.copyFail (rglobFiles children)).2 with
  | some m =>
    simp [use_template, useTemplateBody, h1, h2, hmk, hchk, h404, h200, hcl, hfd, he,
      tempCreatedIn, tempDeletedIn]
  | none =>
    simp [use_template, useTemplateBody, h1, h2, hmk, hchk, h404, h200, hcl, hfd, he,
      tempCreatedIn, tempDeletedIn]

theorem lastValFrom_cons (a : Option String) (w : String × String)
    (ws : List (String × String)) (q : String) :
    lastValFrom a (w :: ws) q = lastValFrom (if q = w.1 then some w.2 else a) ws q := rfl

theorem applyWrites_cons (d : String → Option String) (w : String × String)
    (ws : List (String × String)) :
    applyWrites d (w :: ws) = applyWrites (fun q => if q = w.1 then some w.2 else d q) ws := rfl

theorem lastValFrom_init (ws : List (String × String)) :
    ∀ a q, lastValFrom a ws q = oor (lastValFrom none ws q) a := by
  induction ws with
  | nil => intro a q; cases a <;> rfl
  | cons w ws ih =>
    intro a q
    rw [lastValFrom_cons, lastValFrom_cons]
    by_cases hq : q = w.1
    · rw [if_pos hq, if_pos hq, ih (some w.2) q]
      cases lastValFrom none ws q <;> rfl
    · rw [if_neg hq, if_neg hq, ih a q]

theorem applyWrites_lookup (ws : List (String × String)) :
    ∀ (d : String → Option String) (q : String),
      applyWrites d ws q = oor (lastValFrom none ws q) (d q) := by
  induction ws with
  | nil => intro d q; rfl
  | cons w ws ih =>
    intro d q
    rw [applyWrites_cons, lastValFrom_cons]
    simp only [ih]
    rw [lastValFrom_init ws (if q = w.1 then some w.2 else none) q]
    by_cases hq : q = w.1
    · rw [if_pos hq, if_pos hq]
      cases lastValFrom none ws q <;> rfl
    · rw [if_neg hq, if_neg hq]
      cases lastValFrom none ws q <;> rfl

/-- Replaying an identical write sequence leaves the destination state
unchanged: each path ends up holding the last value written to it. -/
theorem applyWrites_idem (d : String → Option String) (ws : List (String × String))
    (q : String) : applyWrites (applyWrites d ws) ws q = applyWrites d ws q := by
  rw [applyWrites_lookup ws (applyWrites d ws) q, applyWrites_lookup ws d q]
  cases lastValFrom none ws q <;> rfl

/-- C1 (counterexample): a `use_template` invocation that fails with a
copy error on its second file leaves the first file at the destination,
so a failing invocation can leave partially-copied files behind. -/
theorem C1_counterexample :
    (use_template "t" "/d" envCopyFail).result = .err "boom" ∧
    writesOf (use_template "t" "/d" envCopyFail).trace = [("a", "x")] :=
  ⟨rfl, rfl⟩

/-- C1 (amended): for every failing `use_template` invocation, either no
file at all was written at the destination (every failure detected
before the copy loop), or the clone succeeded, the template subtree was
found, and the destination holds exactly a prefix, in traversal order,
of the template's file list — the files copied before the failing one. -/
theorem C1_failure_writes_take (tn cf m : String) (env : UseEnv)
    (_h : (use_template tn cf env).result = .err m) :
    writesOf (use_template tn cf env).trace = [] ∨
    ∃ root children k,
      env.clone = .cloned root ∧ findDir root tn = some children ∧
      writesOf (use_template tn cf env).trace =
        ((rglobFiles children).map (fun pc => (renderPath env.sep pc.1, pc.2))).take k :=
  use_template_writes tn cf env

/-- Witness for C1: the failing 404 scenario writes nothing. -/
theorem C1_failure_writes_take_witness :
    writesOf (use_template "t" "/d" env404).trace = [] ∨
    ∃ root children k,
      env404.clone = .cloned root ∧ findDir root "t" = some children ∧
      writesOf (use_template "t" "/d" env404).trace =
        ((rglobFiles children).map (fun pc => (renderPath env404.sep pc.1, pc.2))).take k :=
  C1_failure_writes_take "t" "/d"
    ("Template '" ++ "t" ++ "' not found in the repository") env404 rfl

/-- C2: whenever a `use_template` run creates the ephemeral clone
workspace, the same run also deletes it before returning, on the success
path and on every failure path after its creation. -/
theorem C2_workspace_cleanup (tn cf : String) (env : UseEnv)
    (h : tempCreatedIn (use_template tn cf env).trace = true) :
    tempDeletedIn (use_template tn cf env).trace = true := by
  rw [← use_template_temp tn cf env]
  exact h

/-- Witness for C2: a run whose clone fails still deletes the workspace. -/
theorem C2_workspace_cleanup_witness :
    tempDeletedIn (use_template "t" "/d" envCloneFail).trace = true :=
  C2_workspace_cleanup "t" "/d" envCloneFail rfl

/-- C3: when the existence check returns HTTP 404, `use_template` fails
with `Template '<name>' not found in the repository` and writes no file
at the destination; any other non-200 status yields a failure whose
message carries that status code. -/
theorem C3_not_found_and_status (tn cf : String) (env : UseEnv)
    (h1 : tn ≠ "") (h2 : cf ≠ "") (h3 : env.mkdirFail = none) :
    (env.check = .response 404 →
      (use_template tn cf env).result
        = .err ("Template '" ++ tn ++ "' not found in the repository") ∧
      writesOf (use_template tn cf env).trace = []) ∧
    (∀ s, env.check = .response s → s ≠ 404 → s ≠ 200 →
      (use_template tn cf env).result
        = .err ("Failed to check template. Status code: " ++ toString s)) := by
  constructor
  · intro hchk
    constructor <;> simp [use_template, useTemplateBody, h1, h2, h3, hchk, writesOf]
  · intro s hchk hs4 hs2
    simp [use_template, useTemplateBody, h1, h2, h3, hchk, hs4, hs2]

/-- Witness for C3: the 404 scenario at concrete arguments. -/
theorem C3_not_found_and_status_witness :
    (use_template "nonexistent" "/tmp/proj" env404).result
      = .err ("Template '" ++ "nonexistent" ++ "' not found in the repository") ∧
    writesOf (use_template "nonexistent" "/tmp/proj" env404).trace = [] :=
  (C3_not_found_and_status "nonexistent" "/tmp/proj" env404
    (by decide) (by decide) rfl).1 rfl

/-- C4 (counterexample): on a host whose `pathlib` flavour joins
components with a backslash, a successful run reports
`app\routes.py`, not the forward-slash form, so the recorded relative
paths are not forward-slash-style regardless of platform. -/
theorem C4_counterexample :
    (use_template "t" "/d" envBackslash).result
      = .ok "t" "/d" 2 ["main.py", "app\\routes.py"] ∧
    ["main.py", "app\\routes.py"] ≠ ["main.py", "app/routes.py"] :=
  ⟨by decide, by decide⟩

/-- C4 (amended): on every successful run the files list contains
exactly the relative paths of the regular files under the template
subtree of the clone, joined with the host platform's path separator
(hence forward-slash-style exactly on hosts whose separator is `/`). -/
theorem C4_files_exact (tn cf n t : String) (k : Nat) (fs : List String) (env : UseEnv)
    (h : (use_template tn cf env).result = .ok n t k fs) :
    ∃ root children,
      env.clone = .cloned root ∧ findDir root tn = some children ∧
      fs = (rglobFiles children).map (fun pc => renderPath env.sep pc.1) := by
  obtain ⟨root, children, hcl, hfd, _, _, hfs, _⟩ := use_template_ok_inv tn cf n t k fs env h
  exact ⟨root, children, hcl, hfd, hfs⟩

/-- Witness for C4: the POSIX success scenario. -/
theorem C4_files_exact_witness :
    ∃ root children,
      envPosix.clone = .cloned root ∧ findDir root "t" = some children ∧
      ["main.py", "app/routes.py"]
        = (rglobFiles children).map (fun pc => renderPath envPosix.sep pc.1) :=
  C4_files_exact "t" "/d" "t" "/d" 2 ["main.py", "app/routes.py"] envPosix (by decide)

/-- C5: neither operation propagates an exception: any exception raised
inside either `try` body is converted by the operation's handlers into a
structured `{success: false, error}` result, and every result of either
operation is the success shape or that failure shape. -/
theorem C5_structured_errors :
    (∀ o m, getTemplatesBody o = .error (.requestException m) →
      get_templates o = .err ("Network error: " ++ m)) ∧
    (∀ o m, getTemplatesBody o = .error (.otherException m) →
      get_templates o = .err m) ∧
    (∀ tn cf env m, (useTemplateBody tn cf env).1 = .error m →
      (use_template tn cf env).result = .err m) ∧
    (∀ o, (∃ ts c, get_templates o = .ok ts c) ∨ (∃ m, get_templates o = .err m)) ∧
    (∀ tn cf env, (∃ n t k fs, (use_template tn cf env).result = .ok n t k fs) ∨
      (∃ m, (use_template tn cf env).result = .err m)) := by
  refine ⟨?_, ?_, ?_, ?_, ?_⟩
  · intro o m h
    simp [get_templates, h]
  · intro o m h
    simp [get_templates, h]
  · intro tn cf env m h
    simp [use_template, h]
  · intro o
    cases hg : get_templates o with
    | ok ts c => exact Or.inl ⟨ts, c, rfl⟩
    | err m => exact Or.inr ⟨m, rfl⟩
  · intro tn cf env
    cases hg : (use_template tn cf env).result with
    | ok n t k fs => exact Or.inl ⟨n, t, k, fs, rfl⟩
    | err m => exact Or.inr ⟨m, rfl⟩

/-- Witness for C5: a raised network exception becomes a structured
failure of `get_templates`. -/
theorem C5_structured_errors_witness :
    get_templates (.requestException "boom") = .err ("Network error: " ++ "boom") :=
  C5_structured_errors.1 (.requestException "boom") "boom" rfl

/-- C6: on a successfully retrieved catalog, `get_templates` returns
exactly the entries whose type is `dir`, in the order listed, each
mapped to name, path and `html_url`, with `count` the length of that
list. -/
theorem C6_only_dirs (entries : List GHEntry) :
    get_templates (.response 200 entries)
      = .ok ((entries.filter (fun e => e.typ = "dir")).map
              (fun e => ⟨e.name, e.path, e.html_url⟩))
            ((entries.filter (fun e => e.typ = "dir")).length) := by
  have hfold : ∀ (l : List GHEntry) (acc : List TemplateDescriptor),
      l.foldl (fun acc item => if item.typ = "dir"
          then acc ++ [⟨item.name, item.path, item.html_url⟩] else acc) acc
        = acc ++ (l.filter (fun e => e.typ = "dir")).map
            (fun e => ⟨e.name, e.path, e.html_url⟩) := by
    intro l
    induction l with
    | nil => intro acc; simp
    | cons e l ih =>
      intro acc
      by_cases he : e.typ = "dir"
      · simp [List.foldl_cons, List.filter_cons, he, ih]
      · simp [List.foldl_cons, List.filter_cons, he, ih]
  simp [get_templates, getTemplatesBody, hfold]

/-- C7: an invocation with a missing required argument returns before
any side effect: an empty target folder (with a non-empty template name)
yields `Target folder is required` with an empty effect trace, and an
empty template name likewise produces no effect. -/
theorem C7_validation_first (tn cf : String) (env : UseEnv) (h : tn = "" ∨ cf = "") :
    (use_template tn cf env).trace = [] ∧
    (tn ≠ "" → cf = "" →
      (use_template tn cf env).result = .err "Target folder is required") := by
  rcases h with h | h
  · refine ⟨by simp [use_template, useTemplateBody, h], ?_⟩
    intro h1 _
    exact absurd h h1
  · by_cases h1 : tn = ""
    · refine ⟨by simp [use_template, useTemplateBody, h1], ?_⟩
      intro h1' _
      exact absurd h1 h1'
    · exact ⟨by simp [use_template, useTemplateBody, h1, h],
        fun _ _ => by simp [use_template, useTemplateBody, h1, h]⟩

/-- Witness for C7: empty target folder at concrete arguments. -/
theorem C7_validation_first_witness :
    (use_template "fastapi-starter" "" env404).trace = [] ∧
    (use_template "fastapi-starter" "" env404).result = .err "Target folder is required" :=
  have h := C7_validation_first "fastapi-starter" "" env404 (Or.inr rfl)
  ⟨h.1, h.2 (by decide) rfl⟩

/-- C8: on every successful run the reported file sequence is the
deterministic depth-first enumeration of the template subtree in which a
directory's entries are listed before descending into them — it is a
function of the cloned tree (and path flavour) alone, hence identical
on every run over the same tree. -/
theorem C8_traversal_order (tn cf n t : String) (k : Nat) (fs : List String) (env : UseEnv)
    (h : (use_template tn cf env).result = .ok n t k fs) :
    ∃ root children,
      env.clone = .cloned root ∧ findDir root tn = some children ∧
      fs = (dfFiles children).map (fun pc => renderPath env.sep pc.1) := by
  obtain ⟨root, children, hcl, hfd, _, _, hfs, _⟩ := use_template_ok_inv tn cf n t k fs env h
  exact ⟨root, children, hcl, hfd, by rw [hfs, rglobFiles_eq_dfFiles]⟩

/-- Witness for C8: the POSIX success scenario follows the depth-first
order. -/
theorem C8_traversal_order_witness :
    ∃ root children,
      envPosix.clone = .cloned root ∧ findDir root "t" = some children ∧
      ["main.py", "app/routes.py"]
        = (dfFiles children).map (fun pc => renderPath envPosix.sep pc.1) :=
  C8_traversal_order "t" "/d" "t" "/d" 2 ["main.py", "app/routes.py"] envPosix (by decide)

/-- C9: a second `use_template` run with the same request against the
same remote tree returns the same successful result, and replaying its
write sequence leaves every destination path with the content the first
run left there (overwrite-on-copy, last write wins). -/
theorem C9_idempotent (tn cf n t : String) (k : Nat) (fs : List String) (env : UseEnv)
    (d : String → Option String)
    (h : (use_template tn cf env).result = .ok n t k fs) :
    (use_template tn cf env).result = .ok n t k fs ∧
    ∀ q, finalDest tn cf env (finalDest tn cf env d) q = finalDest tn cf env d q :=
  ⟨h, fun q => applyWrites_idem d (writesOf (use_template tn cf env).trace) q⟩

/-- Witness for C9: replaying the POSIX success run's writes on its own
output changes nothing at a copied path. -/
theorem C9_idempotent_witness :
    finalDest "t" "/d" envPosix (finalDest "t" "/d" envPosix emptyDest) "main.py"
      = finalDest "t" "/d" envPosix emptyDest "main.py" :=
  (C9_idempotent "t" "/d" "t" "/d" 2 ["main.py", "app/routes.py"] envPosix emptyDest
    (by decide)).2
    "main.py"

/-- C10: when both arguments are empty, the template-name check fires
first: the result is `Template name is required` (never the
target-folder message), with no side effect. -/
theorem C10_name_checked_first (env : UseEnv) :
    (use_template "" "" env).result = .err "Template name is required" ∧
    (use_template "" "" env).trace = [] :=
  ⟨rfl, rfl⟩

end GetStack
